import Mathlib

/-
Verification of the resume-analyzer application (src/app.py) against its
natural-language specification.

The program text is shallowly embedded: all strings are lists of characters
(`Str`), Python truthiness of a string is emptiness testing, the external
Gemini API is an environment parameter (`Option Str`: `none` models the
`None` returned by `call_gemini_api` on an exception, `some t` models any
returned text), and the PDF decoder is an environment parameter
(`PdfDecodeResult`).  Character classes are the ASCII instances of the
Python classes `\s` (regex whitespace / `str.strip`) and `\d`.
-/

namespace ResumeAnalyzer

/-- Text is modelled as a list of characters. -/
abbrev Str := List Char

/-- ASCII whitespace, the characters matched by the Python regex class
`\s` and stripped by `str.strip`: space, tab, newline, carriage return,
vertical tab, form feed. -/
def pyIsSpace (c : Char) : Bool :=
  c.toNat = 32 || c.toNat = 9 || c.toNat = 10 || c.toNat = 13 ||
  c.toNat = 11 || c.toNat = 12

/-- ASCII decimal digits, the characters matched by the Python regex
class `\d`. -/
def pyIsDigit (c : Char) : Bool :=
  48 ≤ c.toNat && c.toNat ≤ 57

/-- Python `int` applied to a non-empty string of decimal digits. -/
def digitsToNat (ds : Str) : Nat :=
  ds.foldl (fun n c => 10 * n + (c.toNat - 48)) 0

/-- Python `str.lstrip()`: remove leading whitespace. -/
def pyLStrip (cs : Str) : Str := cs.dropWhile pyIsSpace

/-- Python `str.rstrip()`: remove trailing whitespace. -/
def pyRStrip (cs : Str) : Str := (cs.reverse.dropWhile pyIsSpace).reverse

/-- Python `str.strip()`: remove leading and trailing whitespace. -/
def pyStrip (cs : Str) : Str := pyRStrip (pyLStrip cs)

/-- Python `"sep".join(xs)`. -/
def joinSep (sep : Str) : List Str → Str
  | [] => []
  | [x] => x
  | x :: y :: xs => x ++ sep ++ joinSep sep (y :: xs)

/-- The match of the anchored regex `Score:\s*(\d+)` (app.py line 86)
against the start of a text.  On a match, returns the captured digit
group together with the remainder of the text after the whole match
(`response_text[len(match.group(0)):]`).  This regex is deterministic:
`\s*` greedily takes the maximal whitespace run after the literal
`Score:` (whitespace and digits are disjoint character classes, so
backtracking can never produce a different match), and `\d+` then takes
the maximal digit run, which must be non-empty. -/
def scoreMatch (cs : Str) : Option (Str × Str) :=
  if cs.take 6 = "Score:".toList then
    let afterWs := (cs.drop 6).dropWhile pyIsSpace
    let ds := afterWs.takeWhile pyIsDigit
    if ds = [] then none
    else some (ds, afterWs.dropWhile pyIsDigit)
  else none

/-- Warning emitted by `parse_ats_score` when the pattern is absent. -/
def parseWarningText : Str := "Could not parse ATS score from the response.".toList

/-- Fixed explanation returned by `parse_ats_score` for a `None` response. -/
def apiErrorText : Str := "Error receiving response.".toList

/-- `parse_ats_score` (app.py lines 81-93).  Input `none` models
`response_text is None`.  Returns `((score, explanation), warnings)`,
where `warnings` collects the `st.warning` messages the function emits. -/
def parse_ats_score (responseText : Option Str) : (Nat × Str) × List Str :=
  match responseText with
  | none => ((0, apiErrorText), [])
  | some cs =>
    match scoreMatch cs with
    | some (ds, rest) =>
        ((min 100 (max 0 (digitsToNat ds)), pyStrip rest), [])
    | none => ((0, cs), [parseWarningText])

/-- Characterisation (independent of `scoreMatch`) of a text that begins
with the pattern `Score:` then optional whitespace then a digit, i.e. a
text the regex of `parse_ats_score` matches. -/
def hasLeadingScoreLine (cs : Str) : Bool :=
  decide (cs.take 6 = "Score:".toList) &&
    (match ((cs.drop 6).dropWhile pyIsSpace).head? with
     | some c => pyIsDigit c
     | none => false)

/-- Outcome of handing the uploaded bytes to the PDF library: either the
per-page texts returned by `page.get_text()` in page order, or a decode
exception with its message. -/
inductive PdfDecodeResult where
  | ok (pages : List Str)
  | fail (err : Str)
deriving DecidableEq

/-- `extract_text_from_pdf` (app.py lines 37-54).  Input `none` models
`uploaded_file is None`.  The page loop appends `page.get_text() + "\n\n"`
for every page and the final text is stripped; a decode exception yields
empty text plus an `st.error` message (collected in the second
component). -/
def extract_text_from_pdf (uploadedFile : Option PdfDecodeResult) : Str × List Str :=
  match uploadedFile with
  | none => ([], [])
  | some (.fail e) => ([], ["Error extracting PDF text: ".toList ++ e])
  | some (.ok pages) =>
      (pyStrip (pages.foldl (fun acc p => acc ++ p ++ "\n\n".toList) []), [])

/-- One chat message, `{"role": ..., "content": ...}`. -/
structure ChatMessage where
  role : Str
  content : Str
deriving DecidableEq

/-- The session state slots of app.py (lines 96-108 and 149). -/
structure SessionState where
  job_description : Str
  resume_text : Str
  analysis_result : Str
  ats_score : Nat
  chat_history : List ChatMessage
  pdf_processed : Bool
  processed_file_name : Option Str
deriving DecidableEq

/-- Python truthiness test `not st.session_state.get("processed_file_name")`:
true when the slot is absent (`None`) or the empty string. -/
def pyFalsyName : Option Str → Bool
  | none => true
  | some s => s.isEmpty

/-- The file-upload handler (app.py lines 140-159).  `extractedText` is
the result of the `extract_text_from_pdf` call the handler makes when the
name check passes.  The second component records whether extraction was
performed (i.e. whether the name-based cache missed). -/
def upload_handler (st : SessionState) (fileName : Str) (extractedText : Str) :
    SessionState × Bool :=
  if pyFalsyName st.processed_file_name = true ∨ st.processed_file_name ≠ some fileName then
    if extractedText ≠ [] then
      ({ st with resume_text := extractedText,
                 pdf_processed := true,
                 processed_file_name := some fileName,
                 analysis_result := [],
                 ats_score := 0,
                 chat_history := [] }, true)
    else
      ({ st with pdf_processed := false, processed_file_name := none }, true)
  else
    (st, false)

/-- Result of a button or chat handler: the new session state, whether
`call_gemini_api` was invoked, and the `st.warning` messages emitted by
the handler (including those of `parse_ats_score`). -/
structure ActionResult where
  state : SessionState
  apiCalled : Bool
  warnings : List Str
deriving DecidableEq

/-- Warning when the resume is missing (analysis buttons). -/
def resumeWarningText : Str := "Please upload and process a resume first.".toList

/-- Warning when the job description is missing. -/
def jdWarningText : Str := "Please enter the Job Description first.".toList

/-- Warning when chatting without a processed resume. -/
def chatResumeWarningText : Str := "Please upload and process a resume before chatting.".toList

/-- Header prepended to the score explanation by the match button. -/
def atsHeaderText : Str := "**ATS Score Explanation:**\n\n".toList

/-- Message appended to the chat on a falsy API response. -/
def chatErrorText : Str := "*Sorry, I encountered an error processing your request.*".toList

/-- The Summary button handler (app.py lines 170-184).  `api` is the
value returned by `call_gemini_api`; the result is stored exactly when it
`is not None`. -/
def summary_btn (st : SessionState) (api : Option Str) : ActionResult :=
  if st.resume_text ≠ [] then
    match api with
    | some result =>
        ⟨{ st with analysis_result := result, ats_score := 0 }, true, []⟩
    | none => ⟨st, true, []⟩
  else ⟨st, false, [resumeWarningText]⟩

/-- The Improvements button handler (app.py lines 187-201): same state
logic as the Summary button. -/
def improve_btn (st : SessionState) (api : Option Str) : ActionResult :=
  if st.resume_text ≠ [] then
    match api with
    | some result =>
        ⟨{ st with analysis_result := result, ats_score := 0 }, true, []⟩
    | none => ⟨st, true, []⟩
  else ⟨st, false, [resumeWarningText]⟩

/-- The Missing Keywords button handler (app.py lines 204-225). -/
def keywords_btn (st : SessionState) (api : Option Str) : ActionResult :=
  if st.resume_text ≠ [] ∧ st.job_description ≠ [] then
    match api with
    | some result =>
        ⟨{ st with analysis_result := result, ats_score := 0 }, true, []⟩
    | none => ⟨st, true, []⟩
  else if st.job_description = [] then ⟨st, false, [jdWarningText]⟩
  else ⟨st, false, [resumeWarningText]⟩

/-- The Percentage Match button handler (app.py lines 228-253).  On a
non-`None` response it parses the score, stores it, and stores the
explanation under the fixed header. -/
def match_btn (st : SessionState) (api : Option Str) : ActionResult :=
  if st.resume_text ≠ [] ∧ st.job_description ≠ [] then
    match api with
    | some result =>
        let parsed := parse_ats_score (some result)
        ⟨{ st with ats_score := parsed.1.1,
                   analysis_result := atsHeaderText ++ parsed.1.2 }, true, parsed.2⟩
    | none => ⟨st, true, []⟩
  else if st.job_description = [] then ⟨st, false, [jdWarningText]⟩
  else ⟨st, false, [resumeWarningText]⟩

/-- The chat message appended for the new user query. -/
def mkUserMsg (p : Str) : ChatMessage := ⟨"user".toList, p⟩

/-- The chat message appended for an assistant reply. -/
def mkAssistantMsg (r : Str) : ChatMessage := ⟨"assistant".toList, r⟩

/-- Rendering of one message in the chat context,
`f"{msg['role']}: {msg['content']}"`. -/
def renderMsg (m : ChatMessage) : Str := m.role ++ ": ".toList ++ m.content

/-- Python `lst[-5:]`: the (at most) five last elements of a list. -/
def lastFive {α : Type} (l : List α) : List α := l.drop (l.length - 5)

/-- `history_context` (app.py line 304): the last five messages of the
chat history, rendered and joined with newlines.  In the handler the
history already contains the just-appended user query at this point. -/
def history_context (chatHistory : List ChatMessage) : Str :=
  joinSep "\n".toList ((lastFive chatHistory).map renderMsg)

/-- `chat_prompt` (app.py lines 305-318), assembled from the state before
the handler appends the user query `p`; the f-string
`{st.session_state.job_description or "N/A"}` substitutes the placeholder
exactly when the job description is empty. -/
def chat_prompt (st : SessionState) (p : Str) : Str :=
  "You are a helpful AI assistant analyzing a resume against a job description.\nCurrent Job Description Context:\n---\n".toList
  ++ (if st.job_description = [] then "N/A".toList else st.job_description)
  ++ "\n---\nFull Resume Text:\n---\n".toList
  ++ st.resume_text
  ++ "\n---\nPrevious Conversation (last few messages):\n".toList
  ++ history_context (st.chat_history ++ [mkUserMsg p])
  ++ "\nUser Query: ".toList
  ++ p
  ++ "\n\nProvide a helpful and relevant response based on the resume and the conversation context, using Markdown formatting where appropriate (like lists or bold text).".toList

/-- The chat handler (app.py lines 293-332).  With a non-empty resume it
appends the user query, calls the API on `chat_prompt`, and appends the
response when it is truthy (`if response:`), otherwise the fixed error
message; with an empty resume it only warns. -/
def chat_handler (st : SessionState) (p : Str) (api : Option Str) : ActionResult :=
  if st.resume_text ≠ [] then
    let hist := st.chat_history ++ [mkUserMsg p]
    match api with
    | some response =>
        if response ≠ [] then
          ⟨{ st with chat_history := hist ++ [mkAssistantMsg response] }, true, []⟩
        else
          ⟨{ st with chat_history := hist ++ [mkAssistantMsg chatErrorText] }, true, []⟩
    | none =>
        ⟨{ st with chat_history := hist ++ [mkAssistantMsg chatErrorText] }, true, []⟩
  else ⟨st, false, [chatResumeWarningText]⟩

/-
Helper lemmas about character classes and whitespace/digit spans.
-/

/-- A digit character is not a whitespace character. -/
theorem not_space_of_digit {c : Char} (h : pyIsDigit c = true) : pyIsSpace c = false := by
  simp only [pyIsDigit, Bool.and_eq_true, decide_eq_true_eq] at h
  simp only [pyIsSpace, Bool.or_eq_false_iff, decide_eq_false_iff_not]
  omega

/-- takeWhile and dropWhile split an appended list at the boundary when
every element of the left part satisfies the predicate and the head of
the right part does not. -/
theorem takeWhile_dropWhile_append {p : Char → Bool} {xs ys : Str}
    (hx : ∀ a ∈ xs, p a = true)
    (hy : ∀ c, ys.head? = some c → p c = false) :
    (xs ++ ys).takeWhile p = xs ∧ (xs ++ ys).dropWhile p = ys := by
  induction xs with
  | nil =>
      simp only [List.nil_append]
      cases ys with
      | nil => exact ⟨rfl, rfl⟩
      | cons c t =>
          have hc : p c = false := hy c rfl
          exact ⟨List.takeWhile_cons_of_neg (by simp [hc]),
                 List.dropWhile_cons_of_neg (by simp [hc])⟩
  | cons a t ih =>
      have ha : p a = true := hx a (by simp)
      have iht := ih (fun b hb => hx b (by simp [hb]))
      constructor
      · rw [List.cons_append, List.takeWhile_cons_of_pos ha, iht.1]
      · rw [List.cons_append, List.dropWhile_cons_of_pos ha, iht.2]

/-- dropWhile skips over a left part all of whose elements satisfy the
predicate. -/
theorem dropWhile_append_of_all {p : Char → Bool} {xs : Str} (ys : Str)
    (hx : ∀ a ∈ xs, p a = true) :
    (xs ++ ys).dropWhile p = ys.dropWhile p := by
  induction xs with
  | nil => rfl
  | cons a t ih =>
      rw [List.cons_append, List.dropWhile_cons_of_pos (hx a (by simp))]
      exact ih (fun b hb => hx b (by simp [hb]))

/-- dropWhile distributes over an append when it does not exhaust the
left part. -/
theorem dropWhile_append_of_ne {p : Char → Bool} {x : Str} (ws : Str)
    (hx : x.dropWhile p ≠ []) :
    (x ++ ws).dropWhile p = x.dropWhile p ++ ws := by
  induction x with
  | nil => exact absurd rfl hx
  | cons a t ih =>
      by_cases ha : p a = true
      · rw [List.cons_append, List.dropWhile_cons_of_pos ha,
            List.dropWhile_cons_of_pos ha]
        exact ih (by rwa [List.dropWhile_cons_of_pos ha] at hx)
      · rw [List.cons_append, List.dropWhile_cons_of_neg (by simp [ha]),
            List.dropWhile_cons_of_neg (by simp [ha]), List.cons_append]

/-- Stripping is unaffected by appending trailing whitespace. -/
theorem pyStrip_append_space (x ws : Str) (hws : ∀ c ∈ ws, pyIsSpace c = true) :
    pyStrip (x ++ ws) = pyStrip x := by
  rw [pyStrip, pyStrip, pyLStrip, pyLStrip]
  by_cases hx : x.dropWhile pyIsSpace = []
  · have hall : ∀ c ∈ x, pyIsSpace c = true := List.dropWhile_eq_nil_iff.1 hx
    have hboth : (x ++ ws).dropWhile pyIsSpace = [] := by
      rw [List.dropWhile_eq_nil_iff]
      intro c hc
      rcases List.mem_append.1 hc with h | h
      · exact hall c h
      · exact hws c h
    rw [hboth, hx]
  · rw [dropWhile_append_of_ne ws hx, pyRStrip, pyRStrip, List.reverse_append]
    rw [dropWhile_append_of_all _ (fun c hc => hws c (List.mem_reverse.1 hc))]

/-- The regex of parse_ats_score matches a text assembled from the
literal, a whitespace run, a digit run, and a rest that does not start
with a digit, capturing exactly the digit run. -/
theorem scoreMatch_of_parts (ws ds rest : Str)
    (hws : ∀ c ∈ ws, pyIsSpace c = true)
    (hdsne : ds ≠ []) (hds : ∀ c ∈ ds, pyIsDigit c = true)
    (hrest : ∀ c, rest.head? = some c → pyIsDigit c = false) :
    scoreMatch ("Score:".toList ++ (ws ++ (ds ++ rest))) = some (ds, rest) := by
  have hlen : ("Score:".toList).length = 6 := by decide
  have hdigit_head : ∀ c, (ds ++ rest).head? = some c → pyIsSpace c = false := by
    intro c hc
    cases ds with
    | nil => exact absurd rfl hdsne
    | cons d t =>
        simp only [List.cons_append, List.head?_cons, Option.some.injEq] at hc
        rw [← hc]
        exact not_space_of_digit (hds d (by simp))
  have h1 := takeWhile_dropWhile_append hws hdigit_head
  have h2 := takeWhile_dropWhile_append hds hrest
  rw [scoreMatch, List.take_left' hlen, List.drop_left' hlen, if_pos rfl]
  simp only [h1.2, h2.1, h2.2]
  rw [if_neg hdsne]

/-- A text without a leading score line is rejected by the regex. -/
theorem scoreMatch_eq_none_of_no_score {t : Str}
    (h : hasLeadingScoreLine t = false) : scoreMatch t = none := by
  rw [scoreMatch]
  by_cases h6 : t.take 6 = "Score:".toList
  · rw [if_pos h6]
    cases hl : (t.drop 6).dropWhile pyIsSpace with
    | nil => simp [hl]
    | cons c tl =>
        simp only [hasLeadingScoreLine, h6, hl, List.head?_cons,
          decide_eq_true_eq, Bool.and_eq_false_iff] at h
        have hc : pyIsDigit c = false := by
          rcases h with h | h
          · simp at h
          · exact h
        have ht : (c :: tl).takeWhile pyIsDigit = [] :=
          List.takeWhile_cons_of_neg (by simp [hc])
        simp [hl, ht]
  · rw [if_neg h6]

/-
Claim theorems.
-/

/-- Claim C1 counterexample: on the input "Score: 50\nGood " the code
does not return the left-trimmed remainder "Good " as the explanation
(it strips trailing whitespace as well, returning "Good"), so the claim
as stated is false. -/
theorem C1_counterexample :
    ¬ ((parse_ats_score (some "Score: 50\nGood ".toList)).1.1 = 50 ∧
       (parse_ats_score (some "Score: 50\nGood ".toList)).1.2 =
         pyLStrip "\nGood ".toList) := by decide

/-- Claim C1 (amended): for every response text beginning with the line
`Score:` followed by whitespace then one or more digits N,
parse_ats_score returns score = clamp(N, 0, 100) and explanation =
everything after the matched prefix with BOTH leading and trailing
whitespace stripped; in particular "Score: 137\nGreat fit" yields score
100 with explanation "Great fit", and "Score: -5\nBad" does not match
(no leading minus accepted), yielding score 0 and the full text. -/
theorem C1_amended (ws ds rest : Str)
    (hwsne : ws ≠ []) (hws : ∀ c ∈ ws, pyIsSpace c = true)
    (hdsne : ds ≠ []) (hds : ∀ c ∈ ds, pyIsDigit c = true)
    (hrest : ∀ c, rest.head? = some c → pyIsDigit c = false) :
    (parse_ats_score (some ("Score:".toList ++ (ws ++ (ds ++ rest))))).1 =
      (min 100 (max 0 (digitsToNat ds)), pyStrip rest) ∧
    (parse_ats_score (some "Score: 137\nGreat fit".toList)).1 =
      (100, "Great fit".toList) ∧
    (parse_ats_score (some "Score: -5\nBad".toList)).1 =
      (0, "Score: -5\nBad".toList) := by
  refine ⟨?_, by decide, by decide⟩
  rw [parse_ats_score, scoreMatch_of_parts ws ds rest hws hdsne hds hrest]

/-- Witness for C1_amended at ws = " ", ds = "137", rest = "\nGreat fit". -/
theorem C1_amended_witness :
    ((" ".toList : Str) ≠ [] ∧ (∀ c ∈ (" ".toList : Str), pyIsSpace c = true) ∧
     ("137".toList : Str) ≠ [] ∧ (∀ c ∈ ("137".toList : Str), pyIsDigit c = true) ∧
     (∀ c, ("\nGreat fit".toList : Str).head? = some c → pyIsDigit c = false)) ∧
    ((parse_ats_score (some ("Score:".toList ++
        (" ".toList ++ ("137".toList ++ "\nGreat fit".toList))))).1 =
      (min 100 (max 0 (digitsToNat "137".toList)), pyStrip "\nGreat fit".toList) ∧
     (parse_ats_score (some "Score: 137\nGreat fit".toList)).1 =
      (100, "Great fit".toList) ∧
     (parse_ats_score (some "Score: -5\nBad".toList)).1 =
      (0, "Score: -5\nBad".toList)) :=
  ⟨⟨by decide, by decide, by decide, by decide, by decide⟩,
   C1_amended " ".toList "137".toList "\nGreat fit".toList
     (by decide) (by decide) (by decide) (by decide) (by decide)⟩

/-- Claim C2: for every response text with no leading Score line,
parse_ats_score returns score 0 and the entire input text unchanged as
the explanation, emitting the non-fatal parse warning; for input None it
returns score 0 and the fixed error explanation string (and no warning
is needed there). -/
theorem C2_no_score (t : Str) (h : hasLeadingScoreLine t = false) :
    parse_ats_score (some t) = ((0, t), [parseWarningText]) ∧
    parse_ats_score none = ((0, apiErrorText), []) := by
  refine ⟨?_, rfl⟩
  rw [parse_ats_score, scoreMatch_eq_none_of_no_score h]

/-- Witness for C2_no_score at the text "Hello". -/
theorem C2_no_score_witness :
    hasLeadingScoreLine "Hello".toList = false ∧
    (parse_ats_score (some "Hello".toList) =
       ((0, "Hello".toList), [parseWarningText]) ∧
     parse_ats_score none = ((0, apiErrorText), [])) :=
  ⟨by decide, C2_no_score "Hello".toList (by decide)⟩

/-- A sample session state after a prior analysis: non-empty job
description, extracted resume text, stored analysis, score 75, one chat
message, and a processed file named old.pdf. -/
def baseState : SessionState :=
  ⟨"jd text".toList, "resume text".toList, "prior analysis".toList, 75,
   [⟨"user".toList, "hi".toList⟩], true, some "old.pdf".toList⟩

/-- Claim C3 counterexample: from a state with a prior analysis,
uploading a differently named file whose extraction yields empty text
does NOT clear the analysis state, so the claim as stated (any upload
with a different name clears it) is false. -/
theorem C3_counterexample :
    ¬ ((upload_handler baseState "new.pdf".toList []).1.analysis_result = [] ∧
       (upload_handler baseState "new.pdf".toList []).1.ats_score = 0 ∧
       (upload_handler baseState "new.pdf".toList []).1.chat_history = []) := by
  decide

/-- Claim C3 (amended): for every session state, uploading a file whose
name differs from the processed file name and whose extraction yields
non-empty text clears analysis_result to empty, ats_score to 0, and
chat_history to the empty sequence. -/
theorem C3_amended (st : SessionState) (fileName extractedText : Str)
    (hdiff : st.processed_file_name ≠ some fileName)
    (hext : extractedText ≠ []) :
    (upload_handler st fileName extractedText).1.analysis_result = [] ∧
    (upload_handler st fileName extractedText).1.ats_score = 0 ∧
    (upload_handler st fileName extractedText).1.chat_history = [] := by
  rw [upload_handler, if_pos (Or.inr hdiff), if_pos hext]
  exact ⟨rfl, rfl, rfl⟩

/-- Witness for C3_amended at baseState with file new.pdf and extracted
text "text". -/
theorem C3_amended_witness :
    (baseState.processed_file_name ≠ some "new.pdf".toList ∧
     ("text".toList : Str) ≠ []) ∧
    ((upload_handler baseState "new.pdf".toList "text".toList).1.analysis_result = [] ∧
     (upload_handler baseState "new.pdf".toList "text".toList).1.ats_score = 0 ∧
     (upload_handler baseState "new.pdf".toList "text".toList).1.chat_history = []) :=
  ⟨⟨by decide, by decide⟩,
   C3_amended baseState "new.pdf".toList "text".toList (by decide) (by decide)⟩

/-- Twelve prior chat messages with distinct contents. -/
def hist12 : List ChatMessage :=
  [⟨"user".toList, "a".toList⟩, ⟨"assistant".toList, "b".toList⟩,
   ⟨"user".toList, "c".toList⟩, ⟨"assistant".toList, "d".toList⟩,
   ⟨"user".toList, "e".toList⟩, ⟨"assistant".toList, "f".toList⟩,
   ⟨"user".toList, "g".toList⟩, ⟨"assistant".toList, "h".toList⟩,
   ⟨"user".toList, "i".toList⟩, ⟨"assistant".toList, "j".toList⟩,
   ⟨"user".toList, "k".toList⟩, ⟨"assistant".toList, "l".toList⟩]

/-- Claim C4 counterexample: with 12 prior messages the constructed
context block is NOT the join of the last 5 of those prior messages
(the handler appends the new user query to the history before taking
the last 5, so the block holds the last 4 prior messages plus the new
query), refuting the claim as stated at a concrete input. -/
theorem C4_counterexample :
    ¬ history_context (hist12 ++ [mkUserMsg "q".toList]) =
        joinSep "\n".toList ((hist12.drop 7).map renderMsg) := by decide

/-- Claim C4 (amended): the context block of the ChatTurn prompt is the
at most 5 most recent messages of the chat history after the new user
query has been appended, rendered as role: content lines joined by
newlines; the selected messages are always a suffix of that history of
length at most 5, and with 12 prior messages the block consists of the
last 4 prior messages followed by the new user message. -/
theorem C4_amended (hist : List ChatMessage) (q : Str) (l : List ChatMessage)
    (h12 : hist.length = 12) :
    history_context (hist ++ [mkUserMsg q]) =
      joinSep "\n".toList ((hist.drop 8 ++ [mkUserMsg q]).map renderMsg) ∧
    (hist.drop 8 ++ [mkUserMsg q]).length = 5 ∧
    (lastFive l).length ≤ 5 ∧
    lastFive l <:+ l := by
  have hlen : (hist ++ [mkUserMsg q]).length = 13 := by simp [h12]
  have hdrop : lastFive (hist ++ [mkUserMsg q]) = hist.drop 8 ++ [mkUserMsg q] := by
    rw [lastFive, hlen]
    norm_num
    exact List.drop_append_of_le_length (by omega)
  refine ⟨?_, ?_, ?_, ?_⟩
  · rw [history_context, hdrop]
  · simp [h12]
  · rw [lastFive]
    simp only [List.length_drop]
    omega
  · exact List.drop_suffix _ _

/-- Witness for C4_amended at the concrete 12-message history. -/
theorem C4_amended_witness :
    hist12.length = 12 ∧
    (history_context (hist12 ++ [mkUserMsg "q".toList]) =
       joinSep "\n".toList ((hist12.drop 8 ++ [mkUserMsg "q".toList]).map renderMsg) ∧
     (hist12.drop 8 ++ [mkUserMsg "q".toList]).length = 5 ∧
     (lastFive hist12).length ≤ 5 ∧
     lastFive hist12 <:+ hist12) :=
  ⟨by decide, C4_amended hist12 "q".toList hist12 (by decide)⟩

/-- Claim C5 counterexample: a completed ChatTurn (the API was called
and a response stored) does not reset ats_score to 0: starting from a
state with ats_score 75, the score is still 75 afterwards, refuting the
claim that every completed non-score action resets it. -/
theorem C5_counterexample :
    ¬ ((chat_handler baseState "hi".toList (some "ok".toList)).apiCalled = true →
       (chat_handler baseState "hi".toList (some "ok".toList)).state.ats_score = 0) := by
  decide

/-- Claim C5 (amended): per completed action, the Summary, Improvements
and MissingKeywords buttons store the response in analysis_result and
reset ats_score to 0 together; the MatchScore button stores the parsed
score and the explanation (under its header) together; and a ChatTurn
leaves both analysis_result and ats_score unchanged (it does not reset
the score). -/
theorem C5_amended (st : SessionState) (resp p : Str) (api : Option Str)
    (hr : st.resume_text ≠ []) (hj : st.job_description ≠ []) :
    ((summary_btn st (some resp)).state.analysis_result = resp ∧
     (summary_btn st (some resp)).state.ats_score = 0) ∧
    ((improve_btn st (some resp)).state.analysis_result = resp ∧
     (improve_btn st (some resp)).state.ats_score = 0) ∧
    ((keywords_btn st (some resp)).state.analysis_result = resp ∧
     (keywords_btn st (some resp)).state.ats_score = 0) ∧
    ((match_btn st (some resp)).state.ats_score =
       (parse_ats_score (some resp)).1.1 ∧
     (match_btn st (some resp)).state.analysis_result =
       atsHeaderText ++ (parse_ats_score (some resp)).1.2) ∧
    ((chat_handler st p api).state.ats_score = st.ats_score ∧
     (chat_handler st p api).state.analysis_result = st.analysis_result) := by
  refine ⟨⟨?_, ?_⟩, ⟨?_, ?_⟩, ⟨?_, ?_⟩, ⟨?_, ?_⟩, ?_, ?_⟩
  · simp [summary_btn, hr]
  · simp [summary_btn, hr]
  · simp [improve_btn, hr]
  · simp [improve_btn, hr]
  · simp [keywords_btn, hr, hj]
  · simp [keywords_btn, hr, hj]
  · simp [match_btn, hr, hj]
  · simp [match_btn, hr, hj]
  · cases api with
    | none => simp [chat_handler, hr]
    | some r =>
        simp only [chat_handler, if_pos hr]
        split <;> rfl
  · cases api with
    | none => simp [chat_handler, hr]
    | some r =>
        simp only [chat_handler, if_pos hr]
        split <;> rfl

/-- Witness for C5_amended at baseState. -/
theorem C5_amended_witness :
    (baseState.resume_text ≠ [] ∧ baseState.job_description ≠ []) ∧
    (((summary_btn baseState (some "ok".toList)).state.analysis_result = "ok".toList ∧
      (summary_btn baseState (some "ok".toList)).state.ats_score = 0) ∧
     ((improve_btn baseState (some "ok".toList)).state.analysis_result = "ok".toList ∧
      (improve_btn baseState (some "ok".toList)).state.ats_score = 0) ∧
     ((keywords_btn baseState (some "ok".toList)).state.analysis_result = "ok".toList ∧
      (keywords_btn baseState (some "ok".toList)).state.ats_score = 0) ∧
     ((match_btn baseState (some "ok".toList)).state.ats_score =
        (parse_ats_score (some "ok".toList)).1.1 ∧
      (match_btn baseState (some "ok".toList)).state.analysis_result =
        atsHeaderText ++ (parse_ats_score (some "ok".toList)).1.2) ∧
     ((chat_handler baseState "hi".toList (some "ok".toList)).state.ats_score =
        baseState.ats_score ∧
      (chat_handler baseState "hi".toList (some "ok".toList)).state.analysis_result =
        baseState.analysis_result)) :=
  ⟨⟨by decide, by decide⟩,
   C5_amended baseState "ok".toList "hi".toList (some "ok".toList)
     (by decide) (by decide)⟩

/-- Claim C6: with an empty job description, the MissingKeywords and
MatchScore buttons perform no API call, emit the warning naming the
missing job description, and leave analysis_result and ats_score (indeed
the whole state) unchanged. -/
theorem C6_empty_jd (st : SessionState) (api : Option Str)
    (hj : st.job_description = []) :
    keywords_btn st api = ⟨st, false, [jdWarningText]⟩ ∧
    match_btn st api = ⟨st, false, [jdWarningText]⟩ ∧
    (keywords_btn st api).state.analysis_result = st.analysis_result ∧
    (keywords_btn st api).state.ats_score = st.ats_score ∧
    (keywords_btn st api).apiCalled = false ∧
    (match_btn st api).state.analysis_result = st.analysis_result ∧
    (match_btn st api).state.ats_score = st.ats_score ∧
    (match_btn st api).apiCalled = false := by
  have h1 : keywords_btn st api = ⟨st, false, [jdWarningText]⟩ := by
    simp only [keywords_btn]
    rw [if_neg (by simp [hj]), if_pos hj]
  have h2 : match_btn st api = ⟨st, false, [jdWarningText]⟩ := by
    simp only [match_btn]
    rw [if_neg (by simp [hj]), if_pos hj]
  exact ⟨h1, h2, by simp [h1], by simp [h1], by simp [h1],
         by simp [h2], by simp [h2], by simp [h2]⟩

/-- A sample session state whose job description is empty. -/
def emptyJdState : SessionState :=
  ⟨[], "resume text".toList, "prior analysis".toList, 42,
   [], true, some "old.pdf".toList⟩

/-- Witness for C6_empty_jd at emptyJdState. -/
theorem C6_empty_jd_witness :
    emptyJdState.job_description = [] ∧
    (keywords_btn emptyJdState (some "ok".toList) =
       ⟨emptyJdState, false, [jdWarningText]⟩ ∧
     match_btn emptyJdState (some "ok".toList) =
       ⟨emptyJdState, false, [jdWarningText]⟩ ∧
     (keywords_btn emptyJdState (some "ok".toList)).state.analysis_result =
       emptyJdState.analysis_result ∧
     (keywords_btn emptyJdState (some "ok".toList)).state.ats_score =
       emptyJdState.ats_score ∧
     (keywords_btn emptyJdState (some "ok".toList)).apiCalled = false ∧
     (match_btn emptyJdState (some "ok".toList)).state.analysis_result =
       emptyJdState.analysis_result ∧
     (match_btn emptyJdState (some "ok".toList)).state.ats_score =
       emptyJdState.ats_score ∧
     (match_btn emptyJdState (some "ok".toList)).apiCalled = false) :=
  ⟨by decide, C6_empty_jd emptyJdState (some "ok".toList) (by decide)⟩

/-- Claim C7: uploading a file whose (non-empty) name equals the
already-processed file name performs no re-extraction and leaves the
whole session state, in particular resume_text, analysis_result,
ats_score and chat_history, untouched. -/
theorem C7_same_name (st : SessionState) (fileName extractedText : Str)
    (hsame : st.processed_file_name = some fileName) (hne : fileName ≠ []) :
    upload_handler st fileName extractedText = (st, false) ∧
    (upload_handler st fileName extractedText).1.resume_text = st.resume_text ∧
    (upload_handler st fileName extractedText).1.analysis_result = st.analysis_result ∧
    (upload_handler st fileName extractedText).1.ats_score = st.ats_score ∧
    (upload_handler st fileName extractedText).1.chat_history = st.chat_history := by
  have h : upload_handler st fileName extractedText = (st, false) := by
    rw [upload_handler, if_neg]
    rintro (h1 | h2)
    · rw [hsame] at h1
      simp only [pyFalsyName, List.isEmpty_iff] at h1
      exact hne h1
    · exact h2 hsame
  exact ⟨h, by simp [h], by simp [h], by simp [h], by simp [h]⟩

/-- Witness for C7_same_name at baseState with its own file old.pdf. -/
theorem C7_same_name_witness :
    (baseState.processed_file_name = some "old.pdf".toList ∧
     ("old.pdf".toList : Str) ≠ []) ∧
    (upload_handler baseState "old.pdf".toList "whatever".toList = (baseState, false) ∧
     (upload_handler baseState "old.pdf".toList "whatever".toList).1.resume_text =
       baseState.resume_text ∧
     (upload_handler baseState "old.pdf".toList "whatever".toList).1.analysis_result =
       baseState.analysis_result ∧
     (upload_handler baseState "old.pdf".toList "whatever".toList).1.ats_score =
       baseState.ats_score ∧
     (upload_handler baseState "old.pdf".toList "whatever".toList).1.chat_history =
       baseState.chat_history) :=
  ⟨⟨by decide, by decide⟩,
   C7_same_name baseState "old.pdf".toList "whatever".toList (by decide) (by decide)⟩

/-- Claim C9: when a newly uploaded file with a different name fails
extraction (the extracted text is empty), the prior resume_text,
analysis_result, ats_score and chat_history are left unchanged, while
pdf_processed is set to false and processed_file_name to none. -/
theorem C9_failed_extraction (st : SessionState) (fileName : Str)
    (hdiff : st.processed_file_name ≠ some fileName) :
    (upload_handler st fileName []).1.resume_text = st.resume_text ∧
    (upload_handler st fileName []).1.analysis_result = st.analysis_result ∧
    (upload_handler st fileName []).1.ats_score = st.ats_score ∧
    (upload_handler st fileName []).1.chat_history = st.chat_history ∧
    (upload_handler st fileName []).1.pdf_processed = false ∧
    (upload_handler st fileName []).1.processed_file_name = none := by
  rw [upload_handler, if_pos (Or.inr hdiff), if_neg (by simp)]
  exact ⟨rfl, rfl, rfl, rfl, rfl, rfl⟩

/-- Witness for C9_failed_extraction at baseState with file new.pdf. -/
theorem C9_failed_extraction_witness :
    baseState.processed_file_name ≠ some "new.pdf".toList ∧
    ((upload_handler baseState "new.pdf".toList []).1.resume_text =
       baseState.resume_text ∧
     (upload_handler baseState "new.pdf".toList []).1.analysis_result =
       baseState.analysis_result ∧
     (upload_handler baseState "new.pdf".toList []).1.ats_score =
       baseState.ats_score ∧
     (upload_handler baseState "new.pdf".toList []).1.chat_history =
       baseState.chat_history ∧
     (upload_handler baseState "new.pdf".toList []).1.pdf_processed = false ∧
     (upload_handler baseState "new.pdf".toList []).1.processed_file_name = none) :=
  ⟨by decide, C9_failed_extraction baseState "new.pdf".toList (by decide)⟩

/-- Claim C10: in the chat action an API response that is the empty
string is handled exactly like a failed call (the handler tests
truthiness): the fixed error message is appended instead of the
response, whereas the four analysis buttons (which test for None) accept
the empty response as a result. -/
theorem C10_empty_response (st : SessionState) (p : Str)
    (hr : st.resume_text ≠ []) (hj : st.job_description ≠ []) :
    (chat_handler st p (some [])).state.chat_history =
      st.chat_history ++ [mkUserMsg p, mkAssistantMsg chatErrorText] ∧
    chat_handler st p (some []) = chat_handler st p none ∧
    (summary_btn st (some [])).state.analysis_result = [] ∧
    (improve_btn st (some [])).state.analysis_result = [] ∧
    (keywords_btn st (some [])).state.analysis_result = [] ∧
    (match_btn st (some [])).state.analysis_result = atsHeaderText ∧
    (match_btn st (some [])).apiCalled = true := by
  refine ⟨?_, ?_, ?_, ?_, ?_, ?_, ?_⟩
  · simp [chat_handler, hr]
  · simp [chat_handler, hr]
  · simp [summary_btn, hr]
  · simp [improve_btn, hr]
  · simp [keywords_btn, hr, hj]
  · simp [match_btn, hr, hj, parse_ats_score, scoreMatch]
  · simp [match_btn, hr, hj]

/-- Witness for C10_empty_response at baseState. -/
theorem C10_empty_response_witness :
    (baseState.resume_text ≠ [] ∧ baseState.job_description ≠ []) ∧
    ((chat_handler baseState "hi".toList (some [])).state.chat_history =
       baseState.chat_history ++ [mkUserMsg "hi".toList, mkAssistantMsg chatErrorText] ∧
     chat_handler baseState "hi".toList (some []) = chat_handler baseState "hi".toList none ∧
     (summary_btn baseState (some [])).state.analysis_result = [] ∧
     (improve_btn baseState (some [])).state.analysis_result = [] ∧
     (keywords_btn baseState (some [])).state.analysis_result = [] ∧
     (match_btn baseState (some [])).state.analysis_result = atsHeaderText ∧
     (match_btn baseState (some [])).apiCalled = true) :=
  ⟨⟨by decide, by decide⟩,
   C10_empty_response baseState "hi".toList (by decide) (by decide)⟩

/-- The page loop of extract_text_from_pdf appends each page followed by
the separator; for a non-empty page list this is the separator-joined
pages followed by one trailing separator. -/
theorem foldl_pages (nn : Str) (pages : List Str) (acc : Str) :
    pages.foldl (fun a p => a ++ p ++ nn) acc =
      acc ++ (if pages = [] then [] else joinSep nn pages ++ nn) := by
  induction pages generalizing acc with
  | nil => simp
  | cons p ps ih =>
      cases ps with
      | nil => simp [joinSep]
      | cons q qs =>
          rw [List.foldl_cons, ih]
          rw [if_neg (by simp), if_neg (by simp)]
          simp [joinSep]

/-- Claim C8: for every successfully decoded PDF, extraction returns the
page texts concatenated in page order with a blank-line separator
between pages, with only the leading and trailing whitespace of the
final joined text trimmed (internal whitespace is preserved, since the
result is exactly the strip of the joined text); on a decode failure it
returns empty text together with a warning reporting the failure. -/
theorem C8_extraction (pages : List Str) (e : Str) :
    extract_text_from_pdf (some (.ok pages)) =
      (pyStrip (joinSep "\n\n".toList pages), []) ∧
    extract_text_from_pdf (some (.fail e)) =
      ([], ["Error extracting PDF text: ".toList ++ e]) := by
  refine ⟨?_, rfl⟩
  simp only [extract_text_from_pdf]
  rw [foldl_pages]
  cases pages with
  | nil => rfl
  | cons p ps =>
      rw [if_neg (by simp), List.nil_append]
      rw [pyStrip_append_space _ _ (by decide)]

end ResumeAnalyzer
